import Mathlib

/-!
Verification development for the kortix extraction/conversion repository.

The first part embeds, as executable Lean functions, the code that exists
under the repository tree: the Flask route handlers of
`apps/markitdown/server.py`, the subtitle-cleaning logic of
`test_ytdlp_poc.py`, and the command-result classification of
`test_ytdlp_advanced.py` (`YtDlpAdvancedExtractor._run_command`).

The second part models, from the design document, the extraction
orchestration core (orchestrator, result validator, cooldown tracker),
which the repository describes but does not ship as code: the repository
only contains debugging scripts that approximate the strategy loop.
-/

/-! ## String helpers mirroring Python primitives -/

/-- `charsLead n h` is true when `n` is a leading segment of `h`
(Python `h.startswith(n)` over char lists). -/
def charsLead : List Char → List Char → Bool
  | [], _ => true
  | _ :: _, [] => false
  | a :: as, b :: bs => a == b && charsLead as bs

/-- `charsSub n h` is true when `n` occurs contiguously inside `h`. -/
def charsSub (n : List Char) : List Char → Bool
  | [] => charsLead n []
  | b :: bs => charsLead n (b :: bs) || charsSub n bs

/-- Python's substring test `needle in hay`. -/
def pyIn (needle hay : String) : Bool :=
  charsSub needle.toList hay.toList

/-- Python's `str.isdigit`: nonempty and every character a digit
(restricted to ASCII digits, the only ones arising in subtitle files). -/
def pyIsdigit (s : String) : Bool :=
  !s.isEmpty && s.toList.all Char.isDigit

/-! ## Subtitle cleaning (`test_ytdlp_poc.py`, `test_ytdlp_advanced.py`) -/

/-- The cleaning step of `extract_transcript_vtt`
(`test_ytdlp_poc.py` lines 52-59): split the artifact on newlines, keep a
line only when it is nonempty, does not start with `WEBVTT`, does not
contain `-->`, and is not all digits after stripping, then join the kept
lines with single spaces.  The identical list comprehension appears
verbatim in `YtDlpAdvancedExtractor._run_command`
(`test_ytdlp_advanced.py` lines 157-165). -/
def extract_transcript_vtt_clean (content : String) : String :=
  let lines := content.splitOn "\n"
  let text_lines := lines.filter (fun line =>
    !line.isEmpty && !(line.startsWith "WEBVTT") &&
      !(pyIn "-->" line) && !(pyIsdigit line.trim))
  String.intercalate " " text_lines

/-- The cleaning step of `extract_transcript_srt`
(`test_ytdlp_poc.py` lines 209-216): keep a line only when it is
nonempty, is not all digits after stripping, and does not contain `-->`,
then join the kept lines with single spaces. -/
def extract_transcript_srt_clean (content : String) : String :=
  let lines := content.splitOn "\n"
  let text_lines := lines.filter (fun line =>
    !line.isEmpty && !(pyIsdigit line.trim) && !(pyIn "-->" line))
  String.intercalate " " text_lines

/-! ## `_run_command` classification (`test_ytdlp_advanced.py` lines 140-204) -/

/-- The dictionary returned by `YtDlpAdvancedExtractor._run_command`,
restricted to the fields the claims are about.  `rate_limited` models
`result.get("rate_limited", False)`: the key is only written in the
artifact-absent branch, so it defaults to `false` elsewhere. -/
structure RunCommandResult where
  success : Bool
  text : Option String := none
  length : Option Nat := none
  error : Option String := none
  rate_limited : Bool := false
  deriving DecidableEq, Repr

/-- `YtDlpAdvancedExtractor._run_command` after the subprocess has run:
`vttContent` is the payload of the matching `.vtt` artifact when one
exists on disk and `none` otherwise; `returncode`, `stdout` and `stderr`
are the captured process results.  The source classifies only on artifact
presence: when the artifact exists it returns a success dictionary with
the cleaned text; when it is absent it returns a failure dictionary whose
`rate_limited` flag is `"429" in result.stderr`.  The return code is
printed but never branched on. -/
def run_command (vttContent : Option String) (returncode : Int)
    (stdout stderr : String) : RunCommandResult :=
  match vttContent with
  | some content =>
    let clean_text := extract_transcript_vtt_clean content
    { success := true, text := some clean_text, length := some clean_text.length }
  | none =>
    { success := false, error := some "No VTT file created",
      rate_limited := pyIn "429" stderr }

/-! ## Flask server model (`apps/markitdown/server.py`) -/

/-- A Python exception as observed by the handler's `except` block:
`msg` is `str(e)` and `kind` is `type(e).__name__`. -/
structure PyExn where
  msg : String
  kind : String
  deriving DecidableEq, Repr

/-- The object returned by `md_converter.convert_stream` / `convert`:
`textContent` is the `text_content` attribute when present, `strRepr` is
`str(result)`, and `title` is the `title` attribute when present
(possibly the empty string, which Python treats as falsy). -/
structure ConvResult where
  textContent : Option String
  strRepr : String := ""
  title : Option String := none
  deriving DecidableEq, Repr

/-- Uploaded bytes. -/
abbrev Bytes := List Nat

/-- The `request.files['file']` part of a multipart upload.
`filename` models `file.filename`, with the empty string standing for a
falsy filename. -/
structure FilePart where
  filename : String
  content : Bytes
  deriving DecidableEq, Repr

/-- The parts of a Flask request that `convert_to_markdown` reads:
the optional multipart `file` field, the raw body `request.data`
(empty list = falsy), and the `X-Filename` header. -/
structure ConvertRequest where
  filePart : Option FilePart
  rawData : Bytes := []
  xFilename : Option String := none
  deriving DecidableEq, Repr

/-- The `metadata` object of a successful `/convert` response:
the `title` key is present exactly when the field is `some`. -/
structure ConvertMetadata where
  filename : String
  size_bytes : Nat
  markdown_length : Nat
  title : Option String
  deriving DecidableEq, Repr

/-- The JSON bodies the server emits.  `errorBody e m t` is
`{"error": e, "message": m}` plus a `"type": t` key when `t` is `some`. -/
inductive ResponseBody where
  | convertOk (markdown : String) (metadata : ConvertMetadata)
  | urlOk (markdown : String) (url : String) (markdown_length : Nat)
      (title : Option String)
  | errorBody (error : String) (message : String) (tyName : Option String)
  deriving DecidableEq, Repr

/-- `markdown_text = result.text_content if hasattr(result, 'text_content') else str(result)`. -/
def markdownOf (r : ConvResult) : String :=
  r.textContent.getD r.strRepr

/-- `if hasattr(result, 'title') and result.title:` — the `title`
metadata key is added only when the attribute exists and is truthy. -/
def pyTruthyTitle : Option String → Option String
  | some t => if t.isEmpty then none else some t
  | none => none

/-- The file-selection prelude of `convert_to_markdown`
(`server.py` lines 56-67): prefer the multipart `file` field (with
`file.filename or 'document'`), else the nonempty raw body (with the
`X-Filename` header defaulting to `'document'`), else nothing. -/
def getUploadedFile (req : ConvertRequest) : Option (String × Bytes) :=
  match req.filePart with
  | some f =>
    some (if f.filename.isEmpty then "document" else f.filename, f.content)
  | none =>
    if req.rawData.isEmpty then none
    else some (req.xFilename.getD "document", req.rawData)

/-- The `POST /convert` handler (`server.py` lines 42-100).  The result
triple is (HTTP status, JSON body, number of converter invocations);
raising inside `convert_stream` is modelled by the converter returning
`Except.error`, which the handler's `except Exception` turns into the
500 response. -/
def convert_to_markdown (req : ConvertRequest)
    (convert_stream : Bytes → Except PyExn ConvResult) :
    Nat × ResponseBody × Nat :=
  match getUploadedFile req with
  | none =>
    (400, .errorBody "No file provided"
      "Send file via multipart/form-data or raw body" none, 0)
  | some (filename, file_content) =>
    match convert_stream file_content with
    | .error e => (500, .errorBody "Conversion failed" e.msg (some e.kind), 1)
    | .ok result =>
      let markdown_text := markdownOf result
      (200, .convertOk markdown_text
        { filename := filename, size_bytes := file_content.length,
          markdown_length := markdown_text.length,
          title := pyTruthyTitle result.title }, 1)

/-- Python `data['url']` lookup on the parsed JSON object, modelled as an
association list with string values. -/
def lookupUrl (d : List (String × String)) : Option String :=
  (d.find? (fun kv => kv.fst == "url")).map (fun kv => kv.snd)

/-- The 400 body of `/convert/url`. -/
def noUrlBody : ResponseBody :=
  .errorBody "No URL provided" "Send JSON with \"url\" field" none

/-- The `POST /convert/url` handler (`server.py` lines 103-153).
`parsed` is the outcome of `request.get_json()`: `Except.error` when the
body is not parseable as JSON (the raise lands in the handler's general
`except`), `.ok none` for a JSON `null` body, `.ok (some d)` for a JSON
object `d`.  `if not data or 'url' not in data` yields the 400 response;
a converter exception yields the 500 response. -/
def convert_url_to_markdown (parsed : Except PyExn (Option (List (String × String))))
    (convert : String → Except PyExn ConvResult) :
    Nat × ResponseBody × Nat :=
  match parsed with
  | .error e =>
    (500, .errorBody "URL conversion failed" e.msg (some e.kind), 0)
  | .ok data =>
    match data with
    | none => (400, noUrlBody, 0)
    | some d =>
      if d.isEmpty then (400, noUrlBody, 0)
      else
        match lookupUrl d with
        | none => (400, noUrlBody, 0)
        | some url =>
          match convert url with
          | .error e =>
            (500, .errorBody "URL conversion failed" e.msg (some e.kind), 1)
          | .ok result =>
            let markdown_text := markdownOf result
            (200, .urlOk markdown_text url markdown_text.length
              (pyTruthyTitle result.title), 1)

/-! ## Extraction core, modelled from the design document

The orchestrator, result validator and cooldown tracker are described in
the design document (sections 3-4.6) but are not shipped as code in the
repository; the debugging scripts only approximate the strategy loop.
They are therefore modelled here from the document's words. -/

/-- Modelled from the spec: the outcome kinds of section 3's
`ExtractionOutcome` tagged variant (the orchestrator of section 4.6 is
missing from the repository source). -/
inductive OutcomeKind where
  | success
  | rateLimited
  | notAvailable
  | transientError
  | unknownError
  deriving DecidableEq, Repr

/-- Modelled from the spec: the payload of a `Success` outcome —
`Success{text, title?, rawEntryCount, backendMetadata}` — extended with
the backend-reported language and translation flag that section 4.5's
language-mismatch rule reads. -/
structure SuccessData where
  text : String
  title : Option String := none
  rawEntryCount : Nat := 0
  backendMetadata : String := ""
  backendLanguage : Option String := none
  translated : Bool := false
  deriving DecidableEq, Repr

/-- Modelled from the spec: section 3's `ExtractionOutcome` tagged
variant, produced fresh by each strategy invocation. -/
inductive Outcome where
  | success (data : SuccessData)
  | rateLimited (retryAfterHint : Option Nat)
  | notAvailable (reason : String)
  | transientError (detail : String)
  | unknownError (detail : String)
  deriving DecidableEq, Repr

/-- The kind tag of an outcome. -/
def Outcome.kindOf : Outcome → OutcomeKind
  | .success _ => .success
  | .rateLimited _ => .rateLimited
  | .notAvailable _ => .notAvailable
  | .transientError _ => .transientError
  | .unknownError _ => .unknownError

/-- Modelled from the spec: the verdict of section 4.5's
`ResultValidator.validate`. -/
inductive Verdict where
  | accepted
  | rejected (reason : String)
  deriving DecidableEq, Repr

/-- Modelled from the spec: the validator's configuration; the minimum
text length defaults to 200 characters (section 4.5). -/
structure ValidatorConfig where
  minLength : Nat := 200
  blockedFingerprints : List String := []
  deriving Repr

/-- The validator configuration with all defaults. -/
def defaultValidatorConfig : ValidatorConfig := {}

/-- Modelled from the spec: section 4.5's `ResultValidator.validate`,
with the rejection rules applied in order, first match wins: too-short
text, then a blocked-page fingerprint, then a language mismatch. -/
def validate (cfg : ValidatorConfig) (prefs : List String)
    (d : SuccessData) : Verdict :=
  if d.text.length < cfg.minLength then .rejected "too short"
  else if cfg.blockedFingerprints.any (fun f => pyIn f d.text) then
    .rejected "blocked-page fingerprint"
  else if !prefs.isEmpty &&
      (match d.backendLanguage with
       | some l => !(prefs.contains l) && !d.translated
       | none => false) then
    .rejected "language mismatch"
  else .accepted

/-- Modelled from the spec: the cooldown tracker's base and cap
constants of section 4.4's `min(cap, base * 2^count)` formula. -/
structure CooldownConfig where
  base : Nat := 1000
  cap : Nat := 60000
  deriving Repr

/-- Modelled from the spec: section 3's `CooldownEntry`
`{hostKey, nextAllowedTime, consecutiveRateLimitCount}`, here keyed
externally by host. -/
structure CooldownEntry where
  nextAllowedTime : Nat := 0
  consecutiveRateLimitCount : Nat := 0
  deriving DecidableEq, Repr

/-- Modelled from the spec: the cooldown duration
`min(cap, base * 2^consecutiveRateLimitCount)` of section 4.4.  The
document adds unspecified random jitter; it is modelled as zero, which
is the reading under which section 8's non-decreasing and capped
properties hold. -/
def cooldownDuration (cfg : CooldownConfig) (count : Nat) : Nat :=
  min cfg.cap (cfg.base * 2 ^ count)

/-- Modelled from the spec: section 4.4's
`recordOutcome(hostKey, outcomeKind)` on one host's entry: on
`RateLimited` the cooldown window is extended by the backoff duration
and the counter increments; on `Success` the entry resets to zero;
other kinds leave the entry unchanged. -/
def recordOutcome (cfg : CooldownConfig) (e : CooldownEntry) (now : Nat) :
    OutcomeKind → CooldownEntry
  | .rateLimited =>
    { nextAllowedTime := now + cooldownDuration cfg e.consecutiveRateLimitCount,
      consecutiveRateLimitCount := e.consecutiveRateLimitCount + 1 }
  | .success => { nextAllowedTime := 0, consecutiveRateLimitCount := 0 }
  | _ => e

/-- Modelled from the spec: section 4.4's `isAllowed(hostKey)` — the
host may be attempted once the cooldown window has elapsed. -/
def isAllowed (e : CooldownEntry) (now : Nat) : Bool :=
  e.nextAllowedTime ≤ now

/-- Point update of the per-host tracker map. -/
def updateTracker (t : String → CooldownEntry) (host : String)
    (e : CooldownEntry) : String → CooldownEntry :=
  fun h => if h = host then e else t h

/-- Modelled from the spec: one entry of the ordered strategy list as
the orchestrator sees it — the strategy's id and host, the outcome its
`execute` call would produce for this request, and the time the call
consumes. -/
structure StrategyAttempt where
  id : String
  host : String
  outcome : Outcome
  elapsed : Nat := 0
  deriving DecidableEq, Repr

/-- Modelled from the spec: section 3's `AttemptRecord`
`{strategyId, outcomeKind, validationVerdict, elapsedTime}`; the
verdict is `none` for attempts that did not produce a `Success`. -/
structure AttemptRecord where
  strategyId : String
  outcomeKind : OutcomeKind
  verdict : Option Verdict
  elapsed : Nat
  deriving DecidableEq, Repr

/-- Modelled from the spec: the aggregated error kinds an exhausted
request can report (section 4.6 plus the `Timeout` of rule 1). -/
inductive AggKind where
  | timeout
  | rateLimited
  | notAvailable
  | unknownError
  deriving DecidableEq, Repr

/-- Modelled from the spec: section 4.6's aggregation on exhaustion —
a strict majority of `RateLimited` attempts reports `RateLimited`, else
any `NotAvailable` reports `NotAvailable`, else `UnknownError`. -/
def aggregate (log : List AttemptRecord) : AggKind :=
  if log.length < 2 * log.countP (fun r => r.outcomeKind == .rateLimited) then
    .rateLimited
  else if log.any (fun r => r.outcomeKind == .notAvailable) then
    .notAvailable
  else .unknownError

/-- Modelled from the spec: section 3's `ExtractionResult` — text,
title and the strategy used on success, the aggregated error kind on
exhaustion, the attempt log in both cases. -/
inductive ExtractionResult where
  | succeeded (text : String) (title : Option String) (strategyUsed : String)
      (attempts : List AttemptRecord)
  | exhausted (kind : AggKind) (attempts : List AttemptRecord)
  deriving DecidableEq, Repr

/-- The attempt log of a result. -/
def ExtractionResult.attempts : ExtractionResult → List AttemptRecord
  | .succeeded _ _ _ att => att
  | .exhausted _ att => att

/-- The number of records in a log whose validation verdict is
`accepted`. -/
def acceptedCount (log : List AttemptRecord) : Nat :=
  log.countP (fun r => r.verdict == some Verdict.accepted)

/-- Modelled from the spec: section 4.6's orchestrator state machine,
run to completion over the ordered strategy list.  From `Trying(i)`:
if the deadline has passed, exhaust with `Timeout`; if the strategy's
host is in an active cooldown window, record a skipped attempt as
`RateLimited` and advance; otherwise invoke the strategy, record the
outcome in the log and in the cooldown tracker, stop with `Succeeded`
on a validated `Success`, and advance on anything else.  An empty
remainder exhausts with the aggregated error kind. -/
def orchestrate (vcfg : ValidatorConfig) (ccfg : CooldownConfig)
    (prefs : List String) (deadline : Nat) :
    List StrategyAttempt → Nat → (String → CooldownEntry) →
      List AttemptRecord → ExtractionResult
  | [], _, _, log => .exhausted (aggregate log) log
  | s :: rest, now, tracker, log =>
    if deadline ≤ now then .exhausted .timeout log
    else if isAllowed (tracker s.host) now then
      let tracker' := updateTracker tracker s.host
        (recordOutcome ccfg (tracker s.host) now s.outcome.kindOf)
      match s.outcome with
      | .success d =>
        let v := validate vcfg prefs d
        let log' := log ++ [⟨s.id, .success, some v, s.elapsed⟩]
        if v = .accepted then .succeeded d.text d.title s.id log'
        else orchestrate vcfg ccfg prefs deadline rest (now + s.elapsed) tracker' log'
      | .rateLimited _ =>
        orchestrate vcfg ccfg prefs deadline rest (now + s.elapsed) tracker'
          (log ++ [⟨s.id, .rateLimited, none, s.elapsed⟩])
      | .notAvailable _ =>
        orchestrate vcfg ccfg prefs deadline rest (now + s.elapsed) tracker'
          (log ++ [⟨s.id, .notAvailable, none, s.elapsed⟩])
      | .transientError _ =>
        orchestrate vcfg ccfg prefs deadline rest (now + s.elapsed) tracker'
          (log ++ [⟨s.id, .transientError, none, s.elapsed⟩])
      | .unknownError _ =>
        orchestrate vcfg ccfg prefs deadline rest (now + s.elapsed) tracker'
          (log ++ [⟨s.id, .unknownError, none, s.elapsed⟩])
    else
      orchestrate vcfg ccfg prefs deadline rest now tracker
        (log ++ [⟨s.id, .rateLimited, none, 0⟩])

/-! ## Helper lemmas -/

/-- Appending a record whose verdict is not `accepted` leaves the
accepted count unchanged. -/
theorem acceptedCount_append_not_accepted (log : List AttemptRecord)
    (r : AttemptRecord) (h : r.verdict ≠ some Verdict.accepted) :
    acceptedCount (log ++ [r]) = acceptedCount log := by
  simp [acceptedCount, List.countP_append, List.countP_cons, h]

/-- Appending an accepted record increments the accepted count. -/
theorem acceptedCount_append_accepted (log : List AttemptRecord)
    (r : AttemptRecord) (h : r.verdict = some Verdict.accepted) :
    acceptedCount (log ++ [r]) = acceptedCount log + 1 := by
  simp [acceptedCount, List.countP_append, List.countP_cons, h]

/-- Invariant behind claim C1: starting from a log with no accepted
record, the orchestrator either succeeds with the accepted record as the
very last entry of the attempt log — nothing is invoked after it — or
exhausts with a log containing no accepted record at all. -/
theorem orchestrate_accepted_aux (vcfg : ValidatorConfig)
    (ccfg : CooldownConfig) (prefs : List String) (deadline : Nat) :
    ∀ (strats : List StrategyAttempt) (now : Nat)
      (tracker : String → CooldownEntry) (log : List AttemptRecord),
      acceptedCount log = 0 →
      (∀ text title sid att,
          orchestrate vcfg ccfg prefs deadline strats now tracker log =
            .succeeded text title sid att →
          ∃ pre rec, att = pre ++ [rec] ∧ rec.verdict = some Verdict.accepted ∧
            rec.strategyId = sid ∧ acceptedCount pre = 0) ∧
      (∀ k att,
          orchestrate vcfg ccfg prefs deadline strats now tracker log =
            .exhausted k att →
          acceptedCount att = 0) := by
  intro strats
  induction strats with
  | nil =>
    intro now tracker log hlog
    refine ⟨?_, ?_⟩
    · intro text title sid att h
      simp [orchestrate] at h
    · intro k att h
      simp [orchestrate] at h
      exact h.2 ▸ hlog
  | cons s rest ih =>
    intro now tracker log hlog
    by_cases hd : deadline ≤ now
    · refine ⟨?_, ?_⟩
      · intro text title sid att h
        simp [orchestrate, hd] at h
      · intro k att h
        simp [orchestrate, hd] at h
        exact h.2 ▸ hlog
    · by_cases ha : isAllowed (tracker s.host) now = true
      · cases ho : s.outcome with
        | success d =>
          by_cases hv : validate vcfg prefs d = Verdict.accepted
          · have hred : orchestrate vcfg ccfg prefs deadline (s :: rest) now tracker log =
                .succeeded d.text d.title s.id
                  (log ++ [⟨s.id, .success, some Verdict.accepted, s.elapsed⟩]) := by
              simp [orchestrate, hd, ha, ho, hv]
            refine ⟨?_, ?_⟩
            · intro text title sid att h
              rw [hred] at h
              injection h with h1 h2 h3 h4
              exact ⟨log, ⟨s.id, .success, some Verdict.accepted, s.elapsed⟩,
                h4.symm, rfl, h3, hlog⟩
            · intro k att h
              rw [hred] at h
              exact absurd h (by simp)
          · have hlog' : acceptedCount
                (log ++ [⟨s.id, OutcomeKind.success, some (validate vcfg prefs d), s.elapsed⟩]) = 0 := by
              rw [acceptedCount_append_not_accepted _ _ (by simp [hv])]
              exact hlog
            have hred : orchestrate vcfg ccfg prefs deadline (s :: rest) now tracker log =
                orchestrate vcfg ccfg prefs deadline rest (now + s.elapsed)
                  (updateTracker tracker s.host
                    (recordOutcome ccfg (tracker s.host) now OutcomeKind.success))
                  (log ++ [⟨s.id, .success, some (validate vcfg prefs d), s.elapsed⟩]) := by
              simp [orchestrate, hd, ha, ho, hv, Outcome.kindOf]
            rw [hred]
            exact ih (now + s.elapsed) _ _ hlog'
        | rateLimited hint =>
          have hlog' : acceptedCount (log ++ [⟨s.id, OutcomeKind.rateLimited, none, s.elapsed⟩]) = 0 := by
            rw [acceptedCount_append_not_accepted _ _ (by simp)]
            exact hlog
          have hred : orchestrate vcfg ccfg prefs deadline (s :: rest) now tracker log =
              orchestrate vcfg ccfg prefs deadline rest (now + s.elapsed)
                (updateTracker tracker s.host
                  (recordOutcome ccfg (tracker s.host) now OutcomeKind.rateLimited))
                (log ++ [⟨s.id, .rateLimited, none, s.elapsed⟩]) := by
            simp [orchestrate, hd, ha, ho, Outcome.kindOf]
          rw [hred]
          exact ih (now + s.elapsed) _ _ hlog'
        | notAvailable reason =>
          have hlog' : acceptedCount (log ++ [⟨s.id, OutcomeKind.notAvailable, none, s.elapsed⟩]) = 0 := by
            rw [acceptedCount_append_not_accepted _ _ (by simp)]
            exact hlog
          have hred : orchestrate vcfg ccfg prefs deadline (s :: rest) now tracker log =
              orchestrate vcfg ccfg prefs deadline rest (now + s.elapsed)
                (updateTracker tracker s.host
                  (recordOutcome ccfg (tracker s.host) now OutcomeKind.notAvailable))
                (log ++ [⟨s.id, .notAvailable, none, s.elapsed⟩]) := by
            simp [orchestrate, hd, ha, ho, Outcome.kindOf]
          rw [hred]
          exact ih (now + s.elapsed) _ _ hlog'
        | transientError detail =>
          have hlog' : acceptedCount (log ++ [⟨s.id, OutcomeKind.transientError, none, s.elapsed⟩]) = 0 := by
            rw [acceptedCount_append_not_accepted _ _ (by simp)]
            exact hlog
          have hred : orchestrate vcfg ccfg prefs deadline (s :: rest) now tracker log =
              orchestrate vcfg ccfg prefs deadline rest (now + s.elapsed)
                (updateTracker tracker s.host
                  (recordOutcome ccfg (tracker s.host) now OutcomeKind.transientError))
                (log ++ [⟨s.id, .transientError, none, s.elapsed⟩]) := by
            simp [orchestrate, hd, ha, ho, Outcome.kindOf]
          rw [hred]
          exact ih (now + s.elapsed) _ _ hlog'
        | unknownError detail =>
          have hlog' : acceptedCount (log ++ [⟨s.id, OutcomeKind.unknownError, none, s.elapsed⟩]) = 0 := by
            rw [acceptedCount_append_not_accepted _ _ (by simp)]
            exact hlog
          have hred : orchestrate vcfg ccfg prefs deadline (s :: rest) now tracker log =
              orchestrate vcfg ccfg prefs deadline rest (now + s.elapsed)
                (updateTracker tracker s.host
                  (recordOutcome ccfg (tracker s.host) now OutcomeKind.unknownError))
                (log ++ [⟨s.id, .unknownError, none, s.elapsed⟩]) := by
            simp [orchestrate, hd, ha, ho, Outcome.kindOf]
          rw [hred]
          exact ih (now + s.elapsed) _ _ hlog'
      · have hlog' : acceptedCount (log ++ [⟨s.id, OutcomeKind.rateLimited, none, 0⟩]) = 0 := by
          rw [acceptedCount_append_not_accepted _ _ (by simp)]
          exact hlog
        have hred : orchestrate vcfg ccfg prefs deadline (s :: rest) now tracker log =
            orchestrate vcfg ccfg prefs deadline rest now tracker
              (log ++ [⟨s.id, .rateLimited, none, 0⟩]) := by
          simp [orchestrate, hd, ha]
        rw [hred]
        exact ih now tracker _ hlog'

/-! ## Demonstration inputs for the witnesses -/

/-- Demo strategy: the listing call, rate limited. -/
def demoStrat1 : StrategyAttempt :=
  { id := "listing", host := "yt-api", outcome := .rateLimited none, elapsed := 1 }

/-- Demo strategy: the single-call fetch, succeeding with a short text. -/
def demoStrat2 : StrategyAttempt :=
  { id := "single", host := "yt-web",
    outcome := .success { text := "hello world" }, elapsed := 2 }

/-- Demo strategy: a success whose text is below the demo threshold. -/
def demoShortStrat : StrategyAttempt :=
  { id := "short", host := "yt-web",
    outcome := .success { text := "ab" }, elapsed := 3 }

/-- Demo validator configuration with a small threshold. -/
def demoVcfg : ValidatorConfig := { minLength := 3 }

/-! ## Claim theorems -/

/-- Claim C1: for every extraction request, at most one `Success`
outcome becomes the final result — the attempt log contains at most one
accepted record; when the orchestrator succeeds, the accepted record is
the last entry of the log (no later strategy is invoked after it), it
names the strategy used, and every earlier record is unaccepted (the
search stopped at the first `Success` passing validation); when the
orchestrator exhausts, no record was accepted. -/
theorem orchestrator_unique_accepted_success (vcfg : ValidatorConfig)
    (ccfg : CooldownConfig) (prefs : List String) (deadline : Nat)
    (strats : List StrategyAttempt) (now : Nat)
    (tracker : String → CooldownEntry) :
    acceptedCount (orchestrate vcfg ccfg prefs deadline strats now tracker []).attempts ≤ 1 ∧
    (∀ text title sid att,
        orchestrate vcfg ccfg prefs deadline strats now tracker [] =
          .succeeded text title sid att →
        ∃ pre rec, att = pre ++ [rec] ∧ rec.verdict = some Verdict.accepted ∧
          rec.strategyId = sid ∧ acceptedCount pre = 0) ∧
    (∀ k att,
        orchestrate vcfg ccfg prefs deadline strats now tracker [] =
          .exhausted k att →
        acceptedCount att = 0) := by
  obtain ⟨h1, h2⟩ :=
    orchestrate_accepted_aux vcfg ccfg prefs deadline strats now tracker [] rfl
  refine ⟨?_, h1, h2⟩
  cases hres : orchestrate vcfg ccfg prefs deadline strats now tracker [] with
  | succeeded text title sid att =>
    obtain ⟨pre, rec, hatt, hacc, _, hpre⟩ := h1 text title sid att hres
    have : acceptedCount att = 1 := by
      rw [hatt, acceptedCount_append_accepted _ _ hacc, hpre]
    simp [ExtractionResult.attempts, this]
  | exhausted k att =>
    simp [ExtractionResult.attempts, h2 k att hres]

/-- Witness for claim C1: a concrete run where the first strategy is
rate limited and the second succeeds; the accepted record closes the
log. -/
theorem orchestrator_unique_accepted_success_witness :
    ∃ pre rec,
      [(⟨"listing", .rateLimited, none, 1⟩ : AttemptRecord),
        ⟨"single", .success, some Verdict.accepted, 2⟩] = pre ++ [rec] ∧
      rec.verdict = some Verdict.accepted ∧ rec.strategyId = "single" ∧
      acceptedCount pre = 0 :=
  (orchestrator_unique_accepted_success demoVcfg {} [] 100
      [demoStrat1, demoStrat2] 0 (fun _ => {})).2.1
    "hello world" none "single"
    [⟨"listing", .rateLimited, none, 1⟩, ⟨"single", .success, some Verdict.accepted, 2⟩]
    (by decide)

/-- Claim C2 as stated is false on the code: `_run_command` never
consults the exit code, so a run with a non-zero exit code, a stale
artifact on disk and a `429` marker in stderr is classified as a
success, not as `RateLimited`. -/
theorem run_command_exit_code_counterexample :
    ¬ (∀ (vtt : Option String) (returncode : Int) (stdout stderr : String),
        (vtt = none ∨ returncode ≠ 0) →
        (run_command vtt returncode stdout stderr).success = false ∧
        (run_command vtt returncode stdout stderr).rate_limited =
          pyIn "429" stderr) := by
  intro h
  have hcl := h (some "hello there") 1 ""
    "ERROR: HTTP Error 429: Too Many Requests" (Or.inr (by decide))
  simp [run_command] at hcl

/-- Claim C2 amended: for every invocation of the external-tool
fallback, if the expected subtitle artifact is absent — the exit status
is not consulted — the attempt is classified as rate limited exactly
when the process's error output contains the substring `429`, and as a
plain transient failure otherwise; when the artifact is present the
attempt is a success regardless of exit status. -/
theorem run_command_artifact_classification (returncode : Int)
    (stdout stderr : String) :
    (run_command none returncode stdout stderr).success = false ∧
    (run_command none returncode stdout stderr).rate_limited = pyIn "429" stderr ∧
    (run_command none returncode stdout stderr).error = some "No VTT file created" ∧
    (∀ content, (run_command (some content) returncode stdout stderr).success = true) :=
  ⟨rfl, rfl, rfl, fun _ => rfl⟩

/-- Claim C3: the validator rejects any `Success` whose text is shorter
than the minimum threshold with verdict `Rejected "too short"` — as the
first rule, regardless of the fingerprint or language fields; the
threshold defaults to 200; and inside the orchestrator a rejected
attempt does not terminate the search: the run continues on the
remaining strategies. -/
theorem validator_too_short_first_rule :
    (∀ (cfg : ValidatorConfig) (prefs : List String) (d : SuccessData),
        d.text.length < cfg.minLength →
        validate cfg prefs d = .rejected "too short") ∧
    defaultValidatorConfig.minLength = 200 ∧
    (∀ (vcfg : ValidatorConfig) (ccfg : CooldownConfig) (prefs : List String)
        (deadline : Nat) (s : StrategyAttempt) (rest : List StrategyAttempt)
        (now : Nat) (tracker : String → CooldownEntry)
        (log : List AttemptRecord) (d : SuccessData) (reason : String),
        ¬ deadline ≤ now → isAllowed (tracker s.host) now = true →
        s.outcome = .success d → validate vcfg prefs d = .rejected reason →
        orchestrate vcfg ccfg prefs deadline (s :: rest) now tracker log =
          orchestrate vcfg ccfg prefs deadline rest (now + s.elapsed)
            (updateTracker tracker s.host
              (recordOutcome ccfg (tracker s.host) now OutcomeKind.success))
            (log ++ [⟨s.id, .success, some (Verdict.rejected reason), s.elapsed⟩])) := by
  refine ⟨?_, rfl, ?_⟩
  · intro cfg prefs d h
    simp [validate, h]
  · intro vcfg ccfg prefs deadline s rest now tracker log d reason hd ha ho hv
    simp [orchestrate, hd, ha, ho, hv, Outcome.kindOf]

/-- Witness for claim C3: a five-character text is rejected as too
short under the default configuration, and a concrete orchestrator step
with a rejected success continues on the remaining (empty) strategy
list. -/
theorem validator_too_short_first_rule_witness :
    validate defaultValidatorConfig [] { text := "short" } =
      Verdict.rejected "too short" ∧
    orchestrate demoVcfg {} [] 100 [demoShortStrat] 0 (fun _ => {}) [] =
      orchestrate demoVcfg {} [] 100 [] (0 + demoShortStrat.elapsed)
        (updateTracker (fun _ => {}) demoShortStrat.host
          (recordOutcome {} ((fun (_ : String) => ({} : CooldownEntry)) demoShortStrat.host)
            0 OutcomeKind.success))
        ([] ++ [⟨demoShortStrat.id, .success, some (Verdict.rejected "too short"),
          demoShortStrat.elapsed⟩]) :=
  ⟨validator_too_short_first_rule.1 defaultValidatorConfig [] { text := "short" }
      (by decide),
    validator_too_short_first_rule.2.2 demoVcfg {} [] 100 demoShortStrat [] 0
      (fun _ => {}) [] { text := "ab" } "too short" (by decide) (by decide)
      rfl (by decide)⟩

/-- Claim C4: after each `RateLimited` outcome the host's cooldown
window is set `min(cap, base * 2^count)` beyond the current time and the
counter increments; the backoff duration is non-decreasing in the
counter and capped by `cap`; a `Success` resets the host's entry to
zero. -/
theorem cooldown_backoff_monotone_capped_reset (ccfg : CooldownConfig)
    (e : CooldownEntry) (now : Nat) :
    (recordOutcome ccfg e now .rateLimited).nextAllowedTime =
      now + min ccfg.cap (ccfg.base * 2 ^ e.consecutiveRateLimitCount) ∧
    (recordOutcome ccfg e now .rateLimited).consecutiveRateLimitCount =
      e.consecutiveRateLimitCount + 1 ∧
    (∀ j k : Nat, j ≤ k → cooldownDuration ccfg j ≤ cooldownDuration ccfg k) ∧
    (∀ k : Nat, cooldownDuration ccfg k ≤ ccfg.cap) ∧
    recordOutcome ccfg e now .success = ⟨0, 0⟩ := by
  refine ⟨rfl, rfl, ?_, ?_, rfl⟩
  · intro j k h
    simp only [cooldownDuration]
    exact min_le_min le_rfl
      (Nat.mul_le_mul_left _ (Nat.pow_le_pow_right (by norm_num) h))
  · intro k
    simp only [cooldownDuration]
    exact min_le_left _ _

/-- Witness for claim C4: with the default constants the backoff after
one rate limit is no larger than after three. -/
theorem cooldown_backoff_monotone_capped_reset_witness :
    cooldownDuration {} 1 ≤ cooldownDuration {} 3 :=
  (cooldown_backoff_monotone_capped_reset {} {} 0).2.2.1 1 3 (by decide)

/-- Claim C5: for both subtitle formats, the candidate text is the
artifact's payload with exactly the timing-arrow lines, the purely
numeric index lines, the `WEBVTT` format header (for the VTT cleaner),
and the empty lines removed, the remaining lines joined into one text
by single spaces. -/
theorem subtitle_cleaning_strips_timing_index (content : String) :
    extract_transcript_vtt_clean content =
      String.intercalate " " ((content.splitOn "\n").filter (fun line =>
        !(pyIn "-->" line || pyIsdigit line.trim ||
          line.startsWith "WEBVTT" || line.isEmpty))) ∧
    extract_transcript_srt_clean content =
      String.intercalate " " ((content.splitOn "\n").filter (fun line =>
        !(pyIn "-->" line || pyIsdigit line.trim || line.isEmpty))) := by
  constructor
  · simp only [extract_transcript_vtt_clean]
    congr 1
    refine List.filter_congr ?_
    intro l _
    generalize l.isEmpty = a
    generalize l.startsWith "WEBVTT" = b
    generalize pyIn "-->" l = c
    generalize pyIsdigit l.trim = d
    cases a <;> cases b <;> cases c <;> cases d <;> rfl
  · simp only [extract_transcript_srt_clean]
    congr 1
    refine List.filter_congr ?_
    intro l _
    generalize l.isEmpty = a
    generalize pyIsdigit l.trim = d
    generalize pyIn "-->" l = c
    cases a <;> cases d <;> cases c <;> rfl

/-- Demo request for the `/convert` witnesses: multipart upload of two
bytes. -/
def demoConvReq : ConvertRequest :=
  { filePart := some { filename := "a.txt", content := [104, 105] } }

/-- Demo converter result. -/
def demoConvResult : ConvResult :=
  { textContent := some "# hi", strRepr := "obj", title := some "Title" }

/-- Demo converter that always succeeds. -/
def demoConverter : Bytes → Except PyExn ConvResult :=
  fun _ => .ok demoConvResult

/-- Demo converter that always raises, mirroring the repository test
`test_convert_url_failure_monkeypatch`. -/
def demoFailConverter : Bytes → Except PyExn ConvResult :=
  fun _ => .error ⟨"conversion failed", "RuntimeError"⟩

/-- Demo URL converter that always raises. -/
def demoUrlFailConverter : String → Except PyExn ConvResult :=
  fun _ => .error ⟨"conversion failed", "RuntimeError"⟩

/-- Claim C6: every `/convert` request that supplies a file and whose
conversion succeeds is answered 200 with the converted markdown, and
metadata carrying the filename, the uploaded byte count, the markdown
length, and a title exactly when the converter reports a (truthy)
one. -/
theorem convert_success_response (req : ConvertRequest)
    (convert_stream : Bytes → Except PyExn ConvResult)
    (filename : String) (file_content : Bytes) (result : ConvResult)
    (hfile : getUploadedFile req = some (filename, file_content))
    (hconv : convert_stream file_content = .ok result) :
    convert_to_markdown req convert_stream =
      (200, .convertOk (markdownOf result)
        { filename := filename, size_bytes := file_content.length,
          markdown_length := (markdownOf result).length,
          title := pyTruthyTitle result.title }, 1) ∧
    (∀ t, pyTruthyTitle result.title = some t → result.title = some t) := by
  constructor
  · simp [convert_to_markdown, hfile, hconv]
  · intro t ht
    cases hres : result.title with
    | none => rw [hres] at ht; exact absurd ht (by simp [pyTruthyTitle])
    | some t0 =>
      rw [hres] at ht
      by_cases he : t0.isEmpty
      · simp [pyTruthyTitle, he] at ht
      · simp [pyTruthyTitle, he] at ht
        rw [ht]

/-- Witness for claim C6: a concrete multipart upload converted to
`# hi`. -/
theorem convert_success_response_witness :
    convert_to_markdown demoConvReq demoConverter =
      (200, .convertOk (markdownOf demoConvResult)
        { filename := "a.txt", size_bytes := ([104, 105] : Bytes).length,
          markdown_length := (markdownOf demoConvResult).length,
          title := pyTruthyTitle demoConvResult.title }, 1) ∧
    (∀ t, pyTruthyTitle demoConvResult.title = some t →
        demoConvResult.title = some t) :=
  convert_success_response demoConvReq demoConverter "a.txt" [104, 105]
    demoConvResult (by decide) rfl

/-- Claim C7: a `/convert` request with neither a multipart `file`
field nor a nonempty raw body is answered 400 with error
`No file provided`, and the converter is never invoked. -/
theorem convert_no_file_400 (req : ConvertRequest)
    (convert_stream : Bytes → Except PyExn ConvResult)
    (hpart : req.filePart = none) (hdata : req.rawData = []) :
    convert_to_markdown req convert_stream =
      (400, .errorBody "No file provided"
        "Send file via multipart/form-data or raw body" none, 0) := by
  simp [convert_to_markdown, getUploadedFile, hpart, hdata]

/-- Witness for claim C7: the empty request. -/
theorem convert_no_file_400_witness :
    convert_to_markdown { filePart := none } demoConverter =
      (400, .errorBody "No file provided"
        "Send file via multipart/form-data or raw body" none, 0) :=
  convert_no_file_400 { filePart := none } demoConverter rfl rfl

/-- Claim C8: a `/convert` request whose conversion raises is answered
500 with body `{"error": "Conversion failed", "message": <exception
text>, "type": <exception kind>}`, and the converter was invoked exactly
once — the failure is not retried. -/
theorem convert_failure_500_single_invocation (req : ConvertRequest)
    (convert_stream : Bytes → Except PyExn ConvResult)
    (filename : String) (file_content : Bytes) (e : PyExn)
    (hfile : getUploadedFile req = some (filename, file_content))
    (hexn : convert_stream file_content = .error e) :
    convert_to_markdown req convert_stream =
      (500, .errorBody "Conversion failed" e.msg (some e.kind), 1) := by
  simp [convert_to_markdown, hfile, hexn]

/-- Witness for claim C8: the demo upload against the always-raising
converter. -/
theorem convert_failure_500_single_invocation_witness :
    convert_to_markdown demoConvReq demoFailConverter =
      (500, .errorBody "Conversion failed" "conversion failed"
        (some "RuntimeError"), 1) :=
  convert_failure_500_single_invocation demoConvReq demoFailConverter
    "a.txt" [104, 105] ⟨"conversion failed", "RuntimeError"⟩ (by decide) rfl

/-- Claim C9: a `/convert/url` request whose body parses to JSON with
no `url` field — `null`, an empty object, or an object without the key —
is answered 400 with no conversion attempted; one whose URL conversion
raises is answered 500 with error `URL conversion failed` and the
message and type of the exception. -/
theorem convert_url_missing_field_and_failure
    (convert : String → Except PyExn ConvResult) :
    (∀ data : Option (List (String × String)),
        (data = none ∨ ∃ d, data = some d ∧ (d = [] ∨ lookupUrl d = none)) →
        convert_url_to_markdown (.ok data) convert = (400, noUrlBody, 0)) ∧
    (∀ (d : List (String × String)) (url : String) (e : PyExn),
        lookupUrl d = some url → convert url = .error e →
        convert_url_to_markdown (.ok (some d)) convert =
          (500, .errorBody "URL conversion failed" e.msg (some e.kind), 1)) := by
  constructor
  · rintro data (rfl | ⟨d, rfl, hcase⟩)
    · rfl
    · rcases hcase with rfl | hlook
      · rfl
      · cases d with
        | nil => rfl
        | cons kv tl => simp [convert_url_to_markdown, hlook]
  · intro d url e hlook hconv
    have hne : d.isEmpty = false := by
      cases d with
      | nil => simp [lookupUrl] at hlook
      | cons kv tl => rfl
    simp [convert_url_to_markdown, hne, hlook, hconv]

/-- Witness for claim C9: the empty JSON object is answered 400, and a
request whose conversion raises `RuntimeError("conversion failed")` is
answered 500. -/
theorem convert_url_missing_field_and_failure_witness :
    convert_url_to_markdown (.ok (some [])) demoUrlFailConverter =
      (400, noUrlBody, 0) ∧
    convert_url_to_markdown (.ok (some [("url", "https://example.com")]))
        demoUrlFailConverter =
      (500, .errorBody "URL conversion failed" "conversion failed"
        (some "RuntimeError"), 1) :=
  ⟨(convert_url_missing_field_and_failure demoUrlFailConverter).1 (some [])
      (Or.inr ⟨[], rfl, Or.inl rfl⟩),
    (convert_url_missing_field_and_failure demoUrlFailConverter).2
      [("url", "https://example.com")] "https://example.com"
      ⟨"conversion failed", "RuntimeError"⟩ (by decide) rfl⟩

/-- Claim C10: a `/convert/url` request whose body is not parseable as
JSON raises inside the handler's general exception catch, so it is
answered 500 with error `URL conversion failed` — not the 400
missing-field response. -/
theorem convert_url_parse_error_500 (e : PyExn)
    (convert : String → Except PyExn ConvResult) :
    convert_url_to_markdown (.error e) convert =
      (500, .errorBody "URL conversion failed" e.msg (some e.kind), 0) ∧
    (convert_url_to_markdown (.error e) convert).1 ≠ 400 := by
  exact ⟨rfl, by simp [convert_url_to_markdown]⟩
